import Mathlib

/-!
# Campus Event Hub — verification of the access-control core and services

Shallow embedding of the Campus Event Hub backend (Node/Express + MongoDB):

* the role-based access-control middleware (`authenticateToken` / `requireRole`
  and the event-ownership check) documented and implemented in the repository's
  RBAC layer;
* the token codec built on `jwt.sign` / `jwt.verify` in `userService.js`
  (payload `{id, email, role}`, 24-hour expiry, process-wide secret; the HMAC
  itself belongs to the external `jsonwebtoken` library and is modelled as an
  abstract tag over the signed fields);
* `userService.js` (register, login, user lookups — documents are modelled as
  field/value association lists so that removal of the `password` key by
  destructuring is faithful);
* `eventService.js` (`updateEvent`, `deleteEvent`, `registerForEvent` with its
  duplicate check and best-effort confirmation email);
* the route handlers of `server.js` for `POST /organizer/update-event/:eventId`
  and `POST /organizer/delete-event/:eventId`, and the `POST /register` route of
  `authRoutes.js`.
-/

namespace CampusEventHub

/-! ## Roles and the access-policy evaluator (RBAC middleware) -/

/-- The closed role enumeration.  `guest` is never stored; it is synthesized
per request by the authentication-normalization middleware. -/
inductive Role where
  | student
  | organizer
  | admin
  | guest
deriving DecidableEq, Repr

/-- The effective requester placed on `req.user`: a role plus the optional
`email` and `id` claims of a decoded token.  A synthetic guest
(`{role: 'guest'}` in the source) carries neither email nor id. -/
structure Requester where
  role : Role
  email : Option String
  id : Option String
deriving DecidableEq, Repr

/-- The synthetic guest requester `{role: 'guest'}`. -/
def guestRequester : Requester := ⟨Role.guest, none, none⟩

/-- Deny kinds surfaced by the access-control layer. -/
inductive DenyKind where
  | AuthenticationRequired
  | InsufficientRole
  | OwnershipViolation
deriving DecidableEq, Repr

/-- HTTP status a deny kind maps to at the boundary (401 for the guest branch
of `requireRole`, 403 for the role branch and for the ownership check). -/
def httpStatus : DenyKind → Nat
  | DenyKind.AuthenticationRequired => 401
  | DenyKind.InsufficientRole => 403
  | DenyKind.OwnershipViolation => 403

/-- An access decision: proceed (`next()`) or a structured denial. -/
inductive PolicyDecision where
  | allow
  | deny (kind : DenyKind)
deriving DecidableEq, Repr

/-- `requireRole(roles)` middleware from the RBAC layer: a missing `req.user`
is coerced to `{role: 'guest'}`; a guest is allowed iff `'guest'` is among the
required roles (else 401); a non-guest is allowed iff their role is among the
required roles (else 403). -/
def requireRole (roles : List Role) (user : Option Requester) : PolicyDecision :=
  let u := user.getD guestRequester
  if u.role = Role.guest then
    if Role.guest ∈ roles then PolicyDecision.allow
    else PolicyDecision.deny DenyKind.AuthenticationRequired
  else
    if u.role ∈ roles then PolicyDecision.allow
    else PolicyDecision.deny DenyKind.InsufficientRole

/-- The event-ownership check of the RBAC layer
(`if (req.user.role !== 'admin' && event.organizer !== req.user.email)`):
deny unless the requester is an admin or the event's recorded organizer email
equals the requester's email. -/
def ownershipCheck (u : Requester) (resourceOwnerEmail : String) : PolicyDecision :=
  if u.role ≠ Role.admin ∧ u.email ≠ some resourceOwnerEmail then
    PolicyDecision.deny DenyKind.OwnershipViolation
  else
    PolicyDecision.allow

/-- The composed access-policy evaluator: the `requireRole` middleware runs
first; if it allows and the route carries an ownership clause (the recorded
organizer email of the target resource), the ownership check runs next.
Admin is the bypass role, hardcoded in the source's ownership check. -/
def evaluate (user : Option Requester) (roles : List Role)
    (ownership : Option String) : PolicyDecision :=
  match requireRole roles user with
  | PolicyDecision.deny k => PolicyDecision.deny k
  | PolicyDecision.allow =>
    match ownership with
    | none => PolicyDecision.allow
    | some ownerEmail => ownershipCheck (user.getD guestRequester) ownerEmail

end CampusEventHub

namespace CampusEventHub

/-! ## Theorems: the role gate (C3, C4) and the ownership gate (C2) -/

/-- **C3.** For every required-roles set, `evaluate` on a guest requester (with
no ownership clause, as in the spec's two-argument form) is ALLOW iff `guest`
is among the required roles, and otherwise denies with
`AuthenticationRequired`, which maps to HTTP 401; the guest branch runs before
the non-guest role check, so the deny kind is `AuthenticationRequired` (never
`InsufficientRole`) for any ownership clause as well. -/
theorem evaluate_guest_rule (u : Requester) (roles : List Role)
    (ownership : Option String) (hg : u.role = Role.guest) :
    (evaluate (some u) roles none = PolicyDecision.allow ↔ Role.guest ∈ roles) ∧
    (Role.guest ∉ roles →
      evaluate (some u) roles ownership
        = PolicyDecision.deny DenyKind.AuthenticationRequired) ∧
    httpStatus DenyKind.AuthenticationRequired = 401 := by
  refine ⟨?_, ?_, rfl⟩
  · unfold evaluate requireRole
    by_cases h : Role.guest ∈ roles <;>
      simp [hg, h, ownershipCheck, guestRequester]
  · intro h
    unfold evaluate requireRole
    simp [hg, h]

/-- Witness for `evaluate_guest_rule` at a concrete guest request against a
route requiring `{student}` only. -/
theorem evaluate_guest_rule_witness :
    (evaluate (some guestRequester) [Role.student] none = PolicyDecision.allow
        ↔ Role.guest ∈ [Role.student]) ∧
    (Role.guest ∉ [Role.student] →
      evaluate (some guestRequester) [Role.student] none
        = PolicyDecision.deny DenyKind.AuthenticationRequired) ∧
    httpStatus DenyKind.AuthenticationRequired = 401 :=
  evaluate_guest_rule guestRequester [Role.student] none rfl

/-- **C4.** A non-guest requester whose role is not among the required roles is
denied with `InsufficientRole` (HTTP 403), regardless of any ownership clause:
the role gate runs before (and independently of) the ownership gate. -/
theorem evaluate_insufficient_role (u : Requester) (roles : List Role)
    (ownership : Option String) (hg : u.role ≠ Role.guest)
    (hr : u.role ∉ roles) :
    evaluate (some u) roles ownership
      = PolicyDecision.deny DenyKind.InsufficientRole ∧
    httpStatus DenyKind.InsufficientRole = 403 := by
  constructor
  · unfold evaluate requireRole
    simp [hg, hr]
  · rfl

/-- Witness for `evaluate_insufficient_role`: a student hitting a route that
requires `{organizer, admin}` with an ownership clause supplied. -/
theorem evaluate_insufficient_role_witness :
    evaluate (some ⟨Role.student, some "s@x.com", some "sid"⟩)
        [Role.organizer, Role.admin] (some "o@x.com")
      = PolicyDecision.deny DenyKind.InsufficientRole ∧
    httpStatus DenyKind.InsufficientRole = 403 :=
  evaluate_insufficient_role ⟨Role.student, some "s@x.com", some "sid"⟩
    [Role.organizer, Role.admin] (some "o@x.com") (by decide) (by decide)

/-- **C2.** For a non-guest requester who passed the role gate, with an
ownership clause supplied: an admin (the bypass role hardcoded in the source)
is allowed regardless of the recorded owner email; any other role is allowed
iff the requester's email string-equals the resource's recorded organizer
email, and otherwise denied with `OwnershipViolation` (HTTP 403).  The
decision depends only on role and email, never on the identity id. -/
theorem evaluate_ownership_rule (u : Requester) (roles : List Role)
    (ownerEmail : String) (hg : u.role ≠ Role.guest) (hr : u.role ∈ roles) :
    (u.role = Role.admin →
      evaluate (some u) roles (some ownerEmail) = PolicyDecision.allow) ∧
    (u.role ≠ Role.admin →
      (evaluate (some u) roles (some ownerEmail) = PolicyDecision.allow
        ↔ u.email = some ownerEmail)) ∧
    (u.role ≠ Role.admin → u.email ≠ some ownerEmail →
      evaluate (some u) roles (some ownerEmail)
        = PolicyDecision.deny DenyKind.OwnershipViolation) ∧
    httpStatus DenyKind.OwnershipViolation = 403 ∧
    (∀ id1 id2 : Option String,
      evaluate (some { u with id := id1 }) roles (some ownerEmail)
        = evaluate (some { u with id := id2 }) roles (some ownerEmail)) := by
  refine ⟨?_, ?_, ?_, rfl, ?_⟩
  · intro ha
    have hr' : Role.admin ∈ roles := ha ▸ hr
    unfold evaluate requireRole ownershipCheck
    simp [hg, hr, ha, hr']
  · intro ha
    unfold evaluate requireRole ownershipCheck
    by_cases he : u.email = some ownerEmail <;> simp [hg, hr, ha, he]
  · intro ha he
    unfold evaluate requireRole ownershipCheck
    simp [hg, hr, ha, he]
  · intro id1 id2
    unfold evaluate requireRole ownershipCheck
    simp [hg, hr]

/-- Witness for `evaluate_ownership_rule`: a non-owning organizer on a route
requiring `{organizer, admin}` whose target event is owned by someone else. -/
theorem evaluate_ownership_rule_witness :
    ((⟨Role.organizer, some "a@x.com", some "org1"⟩ : Requester).role = Role.admin →
      evaluate (some ⟨Role.organizer, some "a@x.com", some "org1"⟩)
          [Role.organizer, Role.admin] (some "b@x.com") = PolicyDecision.allow) ∧
    ((⟨Role.organizer, some "a@x.com", some "org1"⟩ : Requester).role ≠ Role.admin →
      (evaluate (some ⟨Role.organizer, some "a@x.com", some "org1"⟩)
          [Role.organizer, Role.admin] (some "b@x.com") = PolicyDecision.allow
        ↔ (⟨Role.organizer, some "a@x.com", some "org1"⟩ : Requester).email
            = some "b@x.com")) ∧
    ((⟨Role.organizer, some "a@x.com", some "org1"⟩ : Requester).role ≠ Role.admin →
      (⟨Role.organizer, some "a@x.com", some "org1"⟩ : Requester).email ≠ some "b@x.com" →
      evaluate (some ⟨Role.organizer, some "a@x.com", some "org1"⟩)
          [Role.organizer, Role.admin] (some "b@x.com")
        = PolicyDecision.deny DenyKind.OwnershipViolation) ∧
    httpStatus DenyKind.OwnershipViolation = 403 ∧
    (∀ id1 id2 : Option String,
      evaluate (some { (⟨Role.organizer, some "a@x.com", some "org1"⟩ : Requester) with id := id1 })
          [Role.organizer, Role.admin] (some "b@x.com")
        = evaluate (some { (⟨Role.organizer, some "a@x.com", some "org1"⟩ : Requester) with id := id2 })
            [Role.organizer, Role.admin] (some "b@x.com")) :=
  evaluate_ownership_rule ⟨Role.organizer, some "a@x.com", some "org1"⟩
    [Role.organizer, Role.admin] "b@x.com" (by decide) (by decide)

/-! ## Token codec (`jwt.sign` / `jwt.verify` in userService.js)

`login` signs `{id: user._id, email: user.email, role: user.role}` with the
process-wide `JWT_SECRET` and `expiresIn: '24h'`; `verifyToken` verifies the
token against the same secret and returns the decoded claims, throwing on any
failure.  The HMAC internals belong to the external `jsonwebtoken` library and
are modelled as an abstract tag computed deterministically from the secret,
the claims and the expiry instant; time is in whole seconds. -/

/-- A persisted identity as far as the token codec is concerned. -/
structure Identity where
  id : String
  email : String
  role : Role
deriving DecidableEq, Repr

/-- The claims `jwt.sign` embeds at login: `{id, email, role}`. -/
structure TokenPayload where
  id : String
  email : String
  role : Role
deriving DecidableEq, Repr

/-- A signed token: claims, expiry instant (seconds), signature tag. -/
structure Token where
  payload : TokenPayload
  exp : Nat
  sig : String
deriving DecidableEq, Repr

/-- Printable form of a role, as stored in the JWT claims. -/
def roleString : Role → String
  | Role.student => "student"
  | Role.organizer => "organizer"
  | Role.admin => "admin"
  | Role.guest => "guest"

/-- Model of the library's signature: a deterministic tag over the secret,
the claims and the expiry.  Faithful to the round-trip contract of
`jwt.sign`/`jwt.verify`; does not model cryptographic unforgeability. -/
def signatureTag (secret : String) (p : TokenPayload) (exp : Nat) : String :=
  secret ++ "." ++ p.id ++ "." ++ p.email ++ "." ++ roleString p.role
    ++ "." ++ toString exp

/-- `jwt.sign({id, email, role}, JWT_SECRET, {expiresIn: '24h'})` as called by
`login`: the expiry is 24 hours (86400 seconds) after issuance. -/
def issueToken (secret : String) (i : Identity) (now : Nat) : Token :=
  { payload := ⟨i.id, i.email, i.role⟩
    exp := now + 86400
    sig := signatureTag secret ⟨i.id, i.email, i.role⟩ (now + 86400) }

/-- `jwt.verify(token, JWT_SECRET)` as called by `verifyToken`: `none` stands
for the thrown `Invalid or expired token` error (malformed or bad signature or
past expiry), `some` for the decoded claims. -/
def decodeToken (secret : String) (t : Token) (now : Nat) : Option TokenPayload :=
  if t.sig = signatureTag secret t.payload t.exp ∧ now < t.exp then
    some t.payload
  else
    none

/-- **C5.** For every identity and secret, decoding a token issued at `t0` at
any instant strictly before the 24-hour expiry succeeds and yields exactly the
issued subject id, email and role. -/
theorem decode_issue_roundtrip (secret : String) (i : Identity) (t0 t : Nat)
    (ht : t < t0 + 86400) :
    decodeToken secret (issueToken secret i t0) t
      = some ⟨i.id, i.email, i.role⟩ := by
  unfold decodeToken issueToken
  simp [ht]

/-- Witness for `decode_issue_roundtrip` at a concrete identity, secret and
pair of instants inside the validity window. -/
theorem decode_issue_roundtrip_witness :
    decodeToken "campus_event_hub_secret_key"
        (issueToken "campus_event_hub_secret_key"
          ⟨"u1", "student@example.com", Role.student⟩ 1000) 5000
      = some ⟨"u1", "student@example.com", Role.student⟩ :=
  decode_issue_roundtrip "campus_event_hub_secret_key"
    ⟨"u1", "student@example.com", Role.student⟩ 1000 5000 (by decide)

/-! ## Authentication normalization middlewares (C6)

Two distinct middlewares read the bearer token:

* `isAuthenticated` (auth middleware module): tolerant — absent or
  undecodable tokens yield `req.user = {role: 'guest'}` and the request
  proceeds;
* `authenticateToken` (authRoutes.js): strict — absent token is answered
  directly with HTTP 401 (`Access token required`), an undecodable token with
  HTTP 403 (`Invalid or expired token`). -/

/-- Outcome of an authentication middleware: pass control to the handler with
an effective requester, or answer the request itself with an HTTP status. -/
inductive AuthOutcome where
  | proceed (user : Requester)
  | reject (status : Nat)
deriving DecidableEq, Repr

/-- Whether the middleware answered the request itself. -/
def AuthOutcome.isReject : AuthOutcome → Bool
  | AuthOutcome.proceed _ => false
  | AuthOutcome.reject _ => true

/-- The tolerant middleware `isAuthenticated`: no token → guest; token that
fails `verifyToken` → guest; valid token → decoded claims as `req.user`. -/
def isAuthenticated (secret : String) (tok : Option Token) (now : Nat) :
    AuthOutcome :=
  match tok with
  | none => AuthOutcome.proceed guestRequester
  | some t =>
    match decodeToken secret t now with
    | some p => AuthOutcome.proceed ⟨p.role, some p.email, some p.id⟩
    | none => AuthOutcome.proceed guestRequester

/-- The strict middleware `authenticateToken` of authRoutes.js: no token →
401 response; failed decode → 403 response; valid token → decoded claims. -/
def authenticateToken (secret : String) (tok : Option Token) (now : Nat) :
    AuthOutcome :=
  match tok with
  | none => AuthOutcome.reject 401
  | some t =>
    match decodeToken secret t now with
    | some p => AuthOutcome.proceed ⟨p.role, some p.email, some p.id⟩
    | none => AuthOutcome.reject 403

/-- **C6 counterexample.** The claim says the normalization step never rejects
a request, citing `authenticateToken` of authRoutes.js among its sources; but
that middleware, given a request with no bearer token, answers 401 itself
instead of proceeding with a guest requester. -/
theorem authenticateToken_rejects_absent_token :
    authenticateToken "campus_event_hub_secret_key" none 0
      = AuthOutcome.reject 401 := rfl

/-- **C6 (amended).** The `isAuthenticated` middleware never rejects: an
absent token and a token failing to decode (for any reason) are both
normalized to the synthetic guest requester, and a valid token proceeds with
the decoded claims.  The authRoutes `authenticateToken` middleware instead
rejects directly: 401 when the token is absent and 403 when decoding fails. -/
theorem auth_normalization (secret : String) (tok : Option Token) (now : Nat) :
    (AuthOutcome.isReject (isAuthenticated secret tok now) = false) ∧
    (isAuthenticated secret none now = AuthOutcome.proceed guestRequester) ∧
    (∀ t : Token, decodeToken secret t now = none →
      isAuthenticated secret (some t) now
        = AuthOutcome.proceed guestRequester) ∧
    (authenticateToken secret none now = AuthOutcome.reject 401) ∧
    (∀ t : Token, decodeToken secret t now = none →
      authenticateToken secret (some t) now = AuthOutcome.reject 403) := by
  refine ⟨?_, rfl, ?_, rfl, ?_⟩
  · cases tok with
    | none => rfl
    | some t =>
      cases h : decodeToken secret t now <;>
        simp [isAuthenticated, h, AuthOutcome.isReject]
  · intro t hd
    simp [isAuthenticated, hd]
  · intro t hd
    simp [authenticateToken, hd]

/-- Witness for `auth_normalization` at a concrete secret and instant, with a
concretely undecodable token (wrong signature tag) discharging the decode
hypotheses. -/
theorem auth_normalization_witness :
    ((AuthOutcome.isReject (isAuthenticated "s" none 0) = false) ∧
    (isAuthenticated "s" none 0 = AuthOutcome.proceed guestRequester) ∧
    (∀ t : Token, decodeToken "s" t 0 = none →
      isAuthenticated "s" (some t) 0 = AuthOutcome.proceed guestRequester) ∧
    (authenticateToken "s" none 0 = AuthOutcome.reject 401) ∧
    (∀ t : Token, decodeToken "s" t 0 = none →
      authenticateToken "s" (some t) 0 = AuthOutcome.reject 403)) ∧
    decodeToken "s" ⟨⟨"u1", "e@x.com", Role.student⟩, 86400, "garbage"⟩ 0 = none ∧
    isAuthenticated "s" (some ⟨⟨"u1", "e@x.com", Role.student⟩, 86400, "garbage"⟩) 0
      = AuthOutcome.proceed guestRequester :=
  ⟨auth_normalization "s" none 0,
   by decide,
   (auth_normalization "s"
      (some ⟨⟨"u1", "e@x.com", Role.student⟩, 86400, "garbage"⟩) 0).2.2.1
     ⟨⟨"u1", "e@x.com", Role.student⟩, 86400, "garbage"⟩ (by decide)⟩

/-! ## User documents and the password-stripping read paths (userService.js)

MongoDB user documents are modelled as field/value association lists, so the
source's destructuring `const { password, ...userWithoutPassword } = user`
(which removes exactly the `password` key) is the filter dropping that key. -/

/-- A stored document: a list of field/value pairs. -/
abbrev Doc : Type := List (String × String)

/-- Field lookup on a document (first occurrence of the key). -/
def lookupField (d : Doc) (k : String) : Option String :=
  (List.find? (fun p => p.1 == k) d).map Prod.snd

/-- Whether a document carries a field with the given key. -/
def hasKey (d : Doc) (k : String) : Bool :=
  List.any d (fun p => p.1 == k)

/-- `const { password, ...userWithoutPassword } = user`: every key except
`password` survives. -/
def stripPassword (d : Doc) : Doc :=
  List.filter (fun p => p.1 != "password") d

/-- `usersCollection.findOne({ email })`. -/
def findUserByEmail (users : List Doc) (email : String) : Option Doc :=
  List.find? (fun d => lookupField d "email" == some email) users

/-- `userService.register`: reject (409) when a user with the email already
exists; otherwise build the user document (with the bcrypt hash under
`password`) and answer with the document minus `password` plus the inserted
`_id`.  `hash` stands for `bcrypt.hash` and `newId` for the inserted id. -/
def registerUserDoc (users : List Doc) (name email password role sid : String)
    (hash : String → String) (newId : String) : Except Nat Doc :=
  match findUserByEmail users email with
  | some _ => Except.error 409
  | none =>
    let user : Doc :=
      [("name", name), ("email", email), ("password", hash password),
       ("role", role), ("studentId", sid)]
    Except.ok (stripPassword user ++ [("_id", newId)])

/-- `userService.login`: find the user by email (401 when absent), compare the
password with `bcrypt.compare` (`checkPw`, 401 on mismatch) and answer with
the user document minus `password` (the accompanying token is issued from the
document's claims and is not part of the returned user object). -/
def loginUserDoc (users : List Doc) (email password : String)
    (checkPw : String → String → Bool) : Except Nat Doc :=
  match findUserByEmail users email with
  | none => Except.error 401
  | some user =>
    if checkPw password ((lookupField user "password").getD "") then
      Except.ok (stripPassword user)
    else
      Except.error 401

/-- `userService.getUserById`: find by `_id` (404 when absent) and answer with
the document minus `password`. -/
def getUserByIdDoc (users : List Doc) (userId : String) : Except Nat Doc :=
  match List.find? (fun d => lookupField d "_id" == some userId) users with
  | none => Except.error 404
  | some user => Except.ok (stripPassword user)

/-- `userService.getUserByEmail`: find by email (404 when absent) and answer
with the document minus `password`. -/
def getUserByEmailDoc (users : List Doc) (email : String) : Except Nat Doc :=
  match findUserByEmail users email with
  | none => Except.error 404
  | some user => Except.ok (stripPassword user)

/-- `userService.getAllUsers`: optionally filter by role, then map every
document to its password-stripped form. -/
def getAllUsersDocs (users : List Doc) (roleFilter : Option String) : List Doc :=
  List.map stripPassword
    (List.filter
      (fun d => match roleFilter with
        | none => true
        | some r => lookupField d "role" == some r) users)

/-- Whether a read-path result still carries the given key (a failed path
carries no document at all). -/
def resultHasKey (r : Except Nat Doc) (k : String) : Bool :=
  match r with
  | Except.error _ => false
  | Except.ok d => hasKey d k

/-- After stripping, no `password` key remains. -/
theorem hasKey_stripPassword (d : Doc) :
    hasKey (stripPassword d) "password" = false := by
  induction d with
  | nil => rfl
  | cons p rest ih =>
    by_cases h : p.1 = "password" <;>
      simp_all [hasKey, stripPassword, List.filter_cons, List.any_cons]

/-- Appending a non-`password` field keeps the key absent. -/
theorem hasKey_append_id (d : Doc) (v : String)
    (h : hasKey d "password" = false) :
    hasKey (d ++ [("_id", v)]) "password" = false := by
  simp_all [hasKey, List.any_append]
  exact h

/-- **C7.** No read path that returns a user record ever carries the
`password` field: registration response, login response, get-user-by-id,
get-user-by-email and list-all-users all answer with password-stripped
documents, for every store, input and bcrypt behaviour. -/
theorem read_paths_never_return_password (users : List Doc)
    (name email password role sid userId : String)
    (hash : String → String) (newId : String)
    (checkPw : String → String → Bool) (roleFilter : Option String) :
    resultHasKey (registerUserDoc users name email password role sid hash newId)
        "password" = false ∧
    resultHasKey (loginUserDoc users email password checkPw) "password" = false ∧
    resultHasKey (getUserByIdDoc users userId) "password" = false ∧
    resultHasKey (getUserByEmailDoc users email) "password" = false ∧
    List.all (getAllUsersDocs users roleFilter)
        (fun d => !hasKey d "password") = true := by
  refine ⟨?_, ?_, ?_, ?_, ?_⟩
  · unfold registerUserDoc
    cases findUserByEmail users email with
    | none =>
      simp only [resultHasKey]
      exact hasKey_append_id _ _ (hasKey_stripPassword _)
    | some u => rfl
  · unfold loginUserDoc
    cases findUserByEmail users email with
    | none => rfl
    | some u =>
      by_cases h : checkPw password ((lookupField u "password").getD "") <;>
        simp [h, resultHasKey, hasKey_stripPassword]
  · unfold getUserByIdDoc
    cases List.find? (fun d => lookupField d "_id" == some userId) users with
    | none => rfl
    | some u => simp [resultHasKey, hasKey_stripPassword]
  · unfold getUserByEmailDoc
    cases findUserByEmail users email with
    | none => rfl
    | some u => simp [resultHasKey, hasKey_stripPassword]
  · unfold getAllUsersDocs
    simp [List.all_eq_true, hasKey_stripPassword]

/-! ## Event registration (`eventService.registerForEvent`)

The service first looks for an existing registration with the same `eventId`
and `studentEmail` (`registrationsCollection.findOne`), throwing
`You have already registered for this event` when one exists; otherwise it
inserts the registration stamped with `registeredAt: new Date()`, then tries
to send the confirmation email inside its own `try/catch` — an email failure
is only logged — and returns the registration together with its inserted id. -/

/-- A registration document. -/
structure Registration where
  eventId : String
  studentEmail : String
  studentName : String
  studentId : String
  registeredAt : Nat
  id : Nat
deriving DecidableEq, Repr

/-- The caller-supplied registration data (before the service stamps
`registeredAt` and the store assigns the id). -/
structure RegData where
  eventId : String
  studentEmail : String
  studentName : String
  studentId : String
deriving DecidableEq, Repr

/-- Everything `registerForEvent` leaves behind: the value returned (or the
thrown error message), the registrations store, the confirmation emails
dispatched and the error-log lines written. -/
structure RegOutcome where
  result : Except String Registration
  regs : List Registration
  emailsSent : List String
  logs : List String
deriving Repr

/-- `eventService.registerForEvent`.  `now` is the clock read for
`registeredAt`, `newId` the id assigned by `insertOne`, and `emailOk` whether
the confirmation-email dispatch (the body of the inner `try`) succeeds. -/
def registerForEvent (regs : List Registration) (d : RegData) (now : Nat)
    (newId : Nat) (emailOk : Bool) : RegOutcome :=
  match List.find?
      (fun r => r.eventId == d.eventId && r.studentEmail == d.studentEmail)
      regs with
  | some _ =>
    { result := Except.error "You have already registered for this event"
      regs := regs, emailsSent := [], logs := [] }
  | none =>
    let reg : Registration :=
      ⟨d.eventId, d.studentEmail, d.studentName, d.studentId, now, newId⟩
    if emailOk then
      { result := Except.ok reg, regs := regs ++ [reg]
        emailsSent := [d.studentEmail], logs := [] }
    else
      { result := Except.ok reg, regs := regs ++ [reg]
        emailsSent := []
        logs := ["Error sending registration confirmation email"] }

/-- **C8.** A failure of the confirmation-email dispatch is isolated: the
value reported to the caller and the registrations store are identical
whether the email succeeds or fails, and the failing case writes the error to
the log (when the duplicate check does not fire, i.e. when an email is
attempted at all). -/
theorem email_failure_isolated (regs : List Registration) (d : RegData)
    (now newId : Nat) :
    (registerForEvent regs d now newId true).result
      = (registerForEvent regs d now newId false).result ∧
    (registerForEvent regs d now newId true).regs
      = (registerForEvent regs d now newId false).regs ∧
    (registerForEvent regs d now newId false).logs
      = (if (List.find?
            (fun r => r.eventId == d.eventId && r.studentEmail == d.studentEmail)
            regs).isSome
         then []
         else ["Error sending registration confirmation email"]) := by
  unfold registerForEvent
  cases List.find?
      (fun r => r.eventId == d.eventId && r.studentEmail == d.studentEmail)
      regs <;> simp

/-- **C9.** `registerForEvent` fails with
`You have already registered for this event` exactly when a registration with
the same event id and student email already exists, leaving the store
unchanged; otherwise it appends exactly one registration — stamped with the
`registeredAt` clock reading and carrying the inserted id — and returns it. -/
theorem registerForEvent_duplicate_rule (regs : List Registration) (d : RegData)
    (now newId : Nat) (emailOk : Bool) :
    ((∃ r ∈ regs, r.eventId = d.eventId ∧ r.studentEmail = d.studentEmail) →
      (registerForEvent regs d now newId emailOk).result
          = Except.error "You have already registered for this event" ∧
      (registerForEvent regs d now newId emailOk).regs = regs) ∧
    ((¬ ∃ r ∈ regs, r.eventId = d.eventId ∧ r.studentEmail = d.studentEmail) →
      (registerForEvent regs d now newId emailOk).result
          = Except.ok ⟨d.eventId, d.studentEmail, d.studentName, d.studentId,
              now, newId⟩ ∧
      (registerForEvent regs d now newId emailOk).regs
          = regs ++ [⟨d.eventId, d.studentEmail, d.studentName, d.studentId,
              now, newId⟩]) := by
  have hiff : (List.find?
      (fun r => r.eventId == d.eventId && r.studentEmail == d.studentEmail)
      regs).isSome
      ↔ ∃ r ∈ regs, r.eventId = d.eventId ∧ r.studentEmail = d.studentEmail := by
    rw [List.find?_isSome]
    simp
  constructor
  · intro hex
    have := hiff.mpr hex
    unfold registerForEvent
    cases h : List.find?
        (fun r => r.eventId == d.eventId && r.studentEmail == d.studentEmail)
        regs with
    | none => rw [h] at this; simp at this
    | some r => simp
  · intro hnex
    have : ¬ (List.find?
        (fun r => r.eventId == d.eventId && r.studentEmail == d.studentEmail)
        regs).isSome := fun hs => hnex (hiff.mp hs)
    unfold registerForEvent
    cases h : List.find?
        (fun r => r.eventId == d.eventId && r.studentEmail == d.studentEmail)
        regs with
    | none => cases emailOk <;> simp
    | some r => rw [h] at this; simp at this

/-- Witness for `registerForEvent_duplicate_rule`: the duplicate branch fires
on a store already holding the same event id and student email and leaves the
store unchanged; the fresh branch appends the stamped registration. -/
theorem registerForEvent_duplicate_rule_witness :
    ((registerForEvent [⟨"e1", "s@x.com", "Sam", "ST1", 10, 0⟩]
        ⟨"e1", "s@x.com", "Sam", "ST1"⟩ 20 1 true).result
      = Except.error "You have already registered for this event" ∧
     (registerForEvent [⟨"e1", "s@x.com", "Sam", "ST1", 10, 0⟩]
        ⟨"e1", "s@x.com", "Sam", "ST1"⟩ 20 1 true).regs
      = [⟨"e1", "s@x.com", "Sam", "ST1", 10, 0⟩]) ∧
    ((registerForEvent [] ⟨"e1", "s@x.com", "Sam", "ST1"⟩ 20 1 true).result
      = Except.ok ⟨"e1", "s@x.com", "Sam", "ST1", 20, 1⟩ ∧
     (registerForEvent [] ⟨"e1", "s@x.com", "Sam", "ST1"⟩ 20 1 true).regs
      = [⟨"e1", "s@x.com", "Sam", "ST1", 20, 1⟩]) :=
  ⟨(registerForEvent_duplicate_rule [⟨"e1", "s@x.com", "Sam", "ST1", 10, 0⟩]
      ⟨"e1", "s@x.com", "Sam", "ST1"⟩ 20 1 true).1
    ⟨⟨"e1", "s@x.com", "Sam", "ST1", 10, 0⟩, by decide, rfl, rfl⟩,
   (registerForEvent_duplicate_rule [] ⟨"e1", "s@x.com", "Sam", "ST1"⟩ 20 1
      true).2 (by simp)⟩

/-! ## Event documents and the update/delete route handlers (server.js)

`server.js` registers `POST /organizer/update-event/:eventId` and
`POST /organizer/delete-event/:eventId` with **no** authentication middleware
and no call into the access-control layer: the handlers go straight to
`eventService.updateEvent` / `eventService.deleteEvent` (the delete handler
also removes the event's registrations and feedback) and redirect to
`/organizer/my-events`.  The repository's RBAC documentation and route matrix
declare both routes as requiring roles `{organizer, admin}` with ownership
verification. -/

/-- An event document. -/
structure Event where
  id : String
  title : String
  description : String
  date : String
  time : String
  location : String
  organizer : String
  updatedAt : Nat
deriving DecidableEq, Repr

/-- The update payload read from the request body:
`{ title, description, date, time, location }`. -/
structure EventUpdate where
  title : String
  description : String
  date : String
  time : String
  location : String
deriving DecidableEq, Repr

/-- A feedback document (only the event linkage matters here). -/
structure Feedback where
  eventId : String
  studentEmail : String
  rating : Nat
  comment : String
deriving DecidableEq, Repr

/-- The domain state the handlers touch: events, registrations, feedback. -/
structure DomainState where
  events : List Event
  regs : List Registration
  feedback : List Feedback
deriving DecidableEq, Repr

/-- The HTTP-visible outcome of a handler: a redirect or an error status. -/
inductive HandlerResponse where
  | redirect (path : String)
  | errorPage (status : Nat)
deriving DecidableEq, Repr

/-- `eventService.updateEvent`: `updateOne({_id}, {$set: {...data, updatedAt}})`
— 404 (`Event not found`) when no event matches, otherwise the matching event
gets the new fields and `updatedAt` stamp. -/
def updateEvent (events : List Event) (eventId : String) (u : EventUpdate)
    (now : Nat) : Except Nat (List Event) :=
  if List.any events (fun e => e.id == eventId) then
    Except.ok (List.map
      (fun e => if e.id == eventId then
          { e with title := u.title, description := u.description,
                   date := u.date, time := u.time, location := u.location,
                   updatedAt := now }
        else e) events)
  else
    Except.error 404

/-- `eventService.deleteEvent`: `deleteOne({_id})` — 404 when no event
matches, otherwise the event is removed. -/
def deleteEvent (events : List Event) (eventId : String) :
    Except Nat (List Event) :=
  if List.any events (fun e => e.id == eventId) then
    Except.ok (List.filter (fun e => e.id != eventId) events)
  else
    Except.error 404

/-- The `POST /organizer/update-event/:eventId` handler: calls
`eventService.updateEvent` with the body fields and redirects to
`/organizer/my-events`; a service error is answered with a 500 error page.
No requester, token or access decision is consulted. -/
def updateEventRoute (st : DomainState) (eventId : String) (u : EventUpdate)
    (now : Nat) : DomainState × HandlerResponse :=
  match updateEvent st.events eventId u now with
  | Except.ok events' =>
    ({ st with events := events' }, HandlerResponse.redirect "/organizer/my-events")
  | Except.error _ => (st, HandlerResponse.errorPage 500)

/-- The `POST /organizer/delete-event/:eventId` handler: calls
`eventService.deleteEvent`, then deletes the event's registrations and
feedback (`deleteMany({eventId})`), and redirects; a service error is answered
with a 500 error page.  No requester, token or access decision is consulted. -/
def deleteEventRoute (st : DomainState) (eventId : String) :
    DomainState × HandlerResponse :=
  match deleteEvent st.events eventId with
  | Except.ok events' =>
    ({ events := events'
       regs := List.filter (fun r => r.eventId != eventId) st.regs
       feedback := List.filter (fun f => f.eventId != eventId) st.feedback },
     HandlerResponse.redirect "/organizer/my-events")
  | Except.error _ => (st, HandlerResponse.errorPage 500)

/-- **C1 (code bug).** The claim — mutation only after an ALLOW decision —
matches the repository's RBAC documentation, route matrix and test file, but
`server.js` wires the update and delete routes with no access check at all.
Concretely: for a guest request against these routes (declared as requiring
`{organizer, admin}`), the access-policy evaluator decides DENY
(`AuthenticationRequired`), yet the update handler rewrites the event document
and the delete handler removes the event together with its registration —
domain-state mutations with no ALLOW decision. -/
theorem update_delete_routes_mutate_without_allow :
    evaluate (some guestRequester) [Role.organizer, Role.admin]
        (some "owner@x.com")
      = PolicyDecision.deny DenyKind.AuthenticationRequired ∧
    (updateEventRoute
        ⟨[⟨"e1", "Old title", "d", "2024-01-01", "10:00", "Hall", "owner@x.com", 0⟩],
         [], []⟩
        "e1" ⟨"Hacked", "d", "2024-01-01", "10:00", "Hall"⟩ 5).1.events
      = [⟨"e1", "Hacked", "d", "2024-01-01", "10:00", "Hall", "owner@x.com", 5⟩] ∧
    (deleteEventRoute
        ⟨[⟨"e1", "Old title", "d", "2024-01-01", "10:00", "Hall", "owner@x.com", 0⟩],
         [⟨"e1", "s@x.com", "Sam", "ST1", 1, 0⟩], []⟩
        "e1").1
      = ⟨[], [], []⟩ := by
  refine ⟨by decide, ?_, ?_⟩ <;> rfl

/-! ## The public registration endpoint (`POST /register` in authRoutes.js)

The route validates the body — name/email/password required; role, when
truthy, must be `student` or `organizer`; an explicit `student` role requires
a truthy `studentId` — then builds `userData` with `role: role || 'student'`
and `studentId: role === 'student' ? studentId : undefined` and calls
`userService.register`, which rejects duplicate emails with 409 and otherwise
inserts `{..., role: userData.role || 'student',
studentId: userData.role === 'student' ? userData.studentId : null}`.
JavaScript truthiness matters: an absent field and an empty string are both
falsy. -/

/-- The body of a `POST /register` request; `none` is an absent field. -/
structure RegisterRequest where
  name : Option String
  email : Option String
  password : Option String
  role : Option String
  studentId : Option String
deriving DecidableEq, Repr

/-- JavaScript falsiness of an optional string field: absent or empty. -/
def falsy : Option String → Bool
  | none => true
  | some s => s == ""

/-- A stored user account. -/
structure UserAccount where
  name : String
  email : String
  passwordHash : String
  role : String
  studentId : Option String
deriving DecidableEq, Repr

/-- The roles the route accepts explicitly: `const validRoles = ['student',
'organizer']`. -/
def validRoles : List String := ["student", "organizer"]

/-- The `userData.role` the route hands to the service:
`role: role || 'student'`. -/
def userDataRole (req : RegisterRequest) : String :=
  if falsy req.role then "student" else req.role.getD ""

/-- The account document `userService.register` inserts, given the route's
`userData`: the service re-applies `role: userData.role || 'student'` and
keeps `studentId` only when the role it stores is `student` (the route itself
already forwarded `studentId` only for an explicitly named `student` role). -/
def mkAccount (req : RegisterRequest) (hash : String → String) : UserAccount :=
  { name := req.name.getD ""
    email := req.email.getD ""
    passwordHash := hash (req.password.getD "")
    role := if userDataRole req == "" then "student" else userDataRole req
    studentId :=
      if userDataRole req == "student" then
        (if req.role == some "student" then req.studentId else none)
      else none }

/-- The `POST /register` route composed with `userService.register`: returns
the HTTP status and the resulting user store.  `hash` stands for
`bcrypt.hash`. -/
def registerRoute (users : List UserAccount) (req : RegisterRequest)
    (hash : String → String) : Nat × List UserAccount :=
  if falsy req.name || falsy req.email || falsy req.password then
    (400, users)
  else if !falsy req.role && !(List.contains validRoles (req.role.getD "")) then
    (400, users)
  else if req.role == some "student" && falsy req.studentId then
    (400, users)
  else if List.any users (fun u => u.email == req.email.getD "") then
    (409, users)
  else
    (201, users ++ [mkAccount req hash])

/-- **C10 counterexample.** The claim says a `student` registration without a
`studentId` is rejected with HTTP 400; but a request that omits the role
entirely defaults to `student` and is accepted (201) with no `studentId`,
creating a student account without one. -/
theorem register_without_role_skips_studentId_check :
    registerRoute [] ⟨some "Amy", some "amy@x.com", some "pw", none, none⟩
        (fun s => s ++ "#h")
      = (201, [⟨"Amy", "amy@x.com", "pw#h", "student", none⟩]) := by
  decide

/-- When the role field is falsy (absent or empty), the stored role defaults
to `student`. -/
theorem mkAccount_role_of_falsy (req : RegisterRequest)
    (hash : String → String) (hfr : falsy req.role = true) :
    (mkAccount req hash).role = "student" := by
  simp [mkAccount, userDataRole, hfr]

/-- Any account past the route's role validation carries role `student` or
`organizer`. -/
theorem mkAccount_role_valid (req : RegisterRequest) (hash : String → String)
    (h2 : (!falsy req.role && !(List.contains validRoles (req.role.getD "")))
      = false) :
    (mkAccount req hash).role = "student" ∨
      (mkAccount req hash).role = "organizer" := by
  cases hfr : falsy req.role with
  | true => exact Or.inl (mkAccount_role_of_falsy req hash hfr)
  | false =>
    have hmem : (req.role.getD "") ∈ validRoles := by
      simp only [hfr, Bool.not_false, Bool.true_and, Bool.not_eq_false] at h2
      simpa [List.contains] using h2
    simp only [validRoles, List.mem_cons, List.not_mem_nil, or_false] at hmem
    rcases hmem with hs | ho
    · left; simp [mkAccount, userDataRole, hfr, hs]
    · right
      have hne : (req.role.getD "" == "") = false := by
        rw [ho]; decide
      simp [mkAccount, userDataRole, hfr, ho] at hne ⊢

/-- **C10 (amended).** Every account in the store after a call to the
endpoint is either pre-existing or carries role `student` or `organizer`; a
request naming a (truthy) role outside `{student, organizer}` — including
`admin` — is answered 400 with the store unchanged; a request explicitly
naming role `student` with a falsy `studentId` is answered 400 with the store
unchanged; and when no (truthy) role is supplied every account the call adds
carries role `student` — the request is not rejected for lacking a
`studentId`. -/
theorem registerRoute_role_invariant (users : List UserAccount)
    (req : RegisterRequest) (hash : String → String) :
    (∀ u ∈ (registerRoute users req hash).2,
      u ∈ users ∨ u.role = "student" ∨ u.role = "organizer") ∧
    (falsy req.role = false → (req.role.getD "") ∉ validRoles →
      registerRoute users req hash = (400, users)) ∧
    (req.role = some "student" → falsy req.studentId = true →
      registerRoute users req hash = (400, users)) ∧
    (falsy req.role = true →
      ∀ u ∈ (registerRoute users req hash).2, u ∈ users ∨ u.role = "student") := by
  refine ⟨?_, ?_, ?_, ?_⟩
  · intro u hu
    unfold registerRoute at hu
    split at hu
    · exact Or.inl hu
    · split at hu
      · exact Or.inl hu
      · split at hu
        · exact Or.inl hu
        · split at hu
          · exact Or.inl hu
          · rcases List.mem_append.mp hu with h | h
            · exact Or.inl h
            · rw [List.mem_singleton] at h
              subst h
              rename_i hc2 _ _
              exact Or.inr (mkAccount_role_valid req hash
                (Bool.not_eq_true _ ▸ eq_false_of_ne_true hc2))
  · intro hfr hnv
    have hc : List.contains validRoles (req.role.getD "") = false := by
      rcases hc : List.contains validRoles (req.role.getD "") with _ | _
      · rfl
      · exact absurd (by simpa [List.contains] using hc) hnv
    simp only [registerRoute]
    by_cases h1 : (falsy req.name || falsy req.email || falsy req.password) = true
    · rw [if_pos h1]
    · rw [if_neg h1, if_pos (by simp [hfr, hnv])]
  · intro hrs hsid
    have h3 : (req.role == some "student" && falsy req.studentId) = true := by
      simp [hrs, hsid]
    have h2 : (!falsy req.role && !(List.contains validRoles (req.role.getD "")))
        = false := by
      rw [hrs]; decide
    simp [registerRoute, h2, h3]
  · intro hfr u hu
    unfold registerRoute at hu
    split at hu
    · exact Or.inl hu
    · split at hu
      · exact Or.inl hu
      · split at hu
        · exact Or.inl hu
        · split at hu
          · exact Or.inl hu
          · rcases List.mem_append.mp hu with h | h
            · exact Or.inl h
            · rw [List.mem_singleton] at h
              subst h
              exact Or.inr (mkAccount_role_of_falsy req hash hfr)

/-- Witness for `registerRoute_role_invariant`: a request naming role `admin`
is answered 400 with no account created; an explicit `student` without a
`studentId` is answered 400; an accepted organizer registration yields a store
whose accounts all carry allowed roles. -/
theorem registerRoute_role_invariant_witness :
    (registerRoute [] ⟨some "A", some "a@x", some "pw", some "admin", none⟩
        (fun s => s) = (400, [])) ∧
    (registerRoute [] ⟨some "B", some "b@x", some "pw", some "student", none⟩
        (fun s => s) = (400, [])) ∧
    (∀ u ∈ (registerRoute []
        ⟨some "C", some "c@x", some "pw", some "organizer", none⟩
        (fun s => s)).2,
      u ∈ ([] : List UserAccount) ∨ u.role = "student" ∨ u.role = "organizer") :=
  ⟨(registerRoute_role_invariant []
      ⟨some "A", some "a@x", some "pw", some "admin", none⟩ (fun s => s)).2.1
      (by decide) (by decide),
   (registerRoute_role_invariant []
      ⟨some "B", some "b@x", some "pw", some "student", none⟩ (fun s => s)).2.2.1
      rfl (by decide),
   (registerRoute_role_invariant []
      ⟨some "C", some "c@x", some "pw", some "organizer", none⟩ (fun s => s)).1⟩

end CampusEventHub
